import Mathlib

/-!
Verification development for the AWS IID node attestor plugin
(`server/iid_attestor.go`).

The Go source is shallowly embedded: pure helpers become Lean functions,
and every fallible external library call (JSON unmarshalling, SHA-256,
base64, RSA verification, the EC2 DescribeInstances query, HCL parsing,
x509 certificate parsing) is passed in as an explicit environment of
functions whose outcomes drive the same control flow as the source.
Machine integers (`int64` device indexes, Unix-second attach times) are
modelled as `Int`.  A Go runtime panic (out-of-range indexing or nil
pointer dereference) is modelled by the distinguished outcome `crash`.
-/

/-! ## Data model (mirrors the Go structs) -/

/-- `aia.IidAttestedData`: the raw IID document string plus a base64 signature. -/
structure IidAttestedData where
  document : String
  signature : String
deriving DecidableEq

/-- `aia.InstanceIdentityDocument`: the claims decoded from the document. -/
structure InstanceIdentityDocument where
  accountId : String
  instanceId : String
  region : String
deriving DecidableEq

/-- `rsa.PublicKey` (modulus and exponent, abstractly). -/
structure RsaPublicKey where
  n : Nat
  e : Nat
deriving DecidableEq

/-- `ec2.InstanceNetworkInterfaceAttachment`: device index and attach time
(the Go `time.Time` is modelled by its Unix-seconds value, which is all the
source reads from it). -/
structure InterfaceAttachment where
  deviceIndex : Int
  attachTime : Int
deriving DecidableEq

/-- `ec2.InstanceNetworkInterface` (only the attachment is read by the source). -/
structure NetworkInterface where
  attachment : InterfaceAttachment
deriving DecidableEq

/-- `ec2.EbsInstanceBlockDevice`: the volume attach time in Unix seconds. -/
structure EbsBlockDevice where
  attachTime : Int
deriving DecidableEq

/-- `ec2.InstanceBlockDeviceMapping`.  The `Ebs` field is a pointer in the
AWS SDK and may be absent, hence `Option`; the source dereferences it
without a nil check. -/
structure BlockDeviceMapping where
  deviceName : String
  ebs : Option EbsBlockDevice
deriving DecidableEq

/-- `ec2.Instance` (the fields the source reads). -/
structure Ec2Instance where
  networkInterfaces : List NetworkInterface
  blockDeviceMappings : List BlockDeviceMapping
  rootDeviceName : String
deriving DecidableEq

/-- `ec2.Reservation`. -/
structure Reservation where
  instances : List Ec2Instance
deriving DecidableEq

/-- `ec2.DescribeInstancesOutput`. -/
structure DescribeInstancesOutput where
  reservations : List Reservation
deriving DecidableEq

/-- `nodeattestor.AttestRequest`: the opaque attestation payload
(`req.AttestedData.Data`) and the caller-supplied replay flag
(`req.AttestedBefore`). -/
structure AttestRequest where
  attestedData : String
  attestedBefore : Bool
deriving DecidableEq

/-- The mutable plugin state (`IIDAttestorPlugin`): configured trust domain
and the parsed AWS CA public key. -/
structure PluginState where
  trustDomain : String
  awsCaCertPublicKey : RsaPublicKey
deriving DecidableEq

/-- The step at which `Attest` denies an attestation, following the
`attestationStepError` call sites in the source. -/
inductive AttestError where
  | malformedAttestedData
  | malformedIID
  | replayDetected
  | signatureDecodeFailed
  | signatureInvalid
  | providerQueryFailed
  | unexpectedTopology (deviceIndex : Int)
  | rootDeviceNotFound
  | attachTimeDisparity (seconds : Int)
deriving DecidableEq

/-- Outcome of one `Attest` call: a valid response carrying the base SPIFFE
ID, a denial (`Valid: false` plus an error), or a Go runtime panic caused by
unguarded indexing / nil dereference. -/
inductive AttestOutcome where
  | valid (baseSpiffeId : String)
  | denied (err : AttestError)
  | crash
deriving DecidableEq

/-! ## Go `path` / `net/url` string machinery

`spiffeID` builds its result with `path.Join` and `url.URL.String()`.
Both are modelled faithfully at the level of character lists:
`path.Join` drops leading empty elements, joins with a slash and applies
the lexical cleanup of `path.Clean`; `URL.String` percent-escapes the
host and path with `net/url`'s `shouldEscape` tables for the host and
path encoding modes.  (Go escapes per UTF-8 byte; the per-character
model below coincides with it on ASCII strings, which is all the
theorems evaluate.) -/

/-- Upper-case hexadecimal digit, as used by `net/url`'s percent escaping. -/
def upperHexDigit (d : Nat) : Char :=
  if d < 10 then Char.ofNat (48 + d) else Char.ofNat (55 + d)

/-- Percent-escape one byte: `%XY` with upper-case hex digits. -/
def escapeChar (c : Char) : List Char :=
  ['%', upperHexDigit (c.toNat / 16), upperHexDigit (c.toNat % 16)]

/-- `net/url.escape`: escape exactly the characters selected by the mode. -/
def escapeWith (sel : Char → Bool) : List Char → List Char
  | [] => []
  | c :: cs => (if sel c then escapeChar c else [c]) ++ escapeWith sel cs

/-- `net/url.shouldEscape` in `encodePath` mode: alphanumerics and
`-_.~` are kept, and of the sub-delimiters `$&+,/:;=?@` only `?` is
escaped; everything else is escaped. -/
def shouldEscapePath (c : Char) : Bool :=
  if c.isAlpha || c.isDigit then false
  else if c = '-' || c = '_' || c = '.' || c = '~' then false
  else if c = '$' || c = '&' || c = '+' || c = ',' || c = '/' || c = ':' ||
          c = ';' || c = '=' || c = '?' || c = '@' then decide (c = '?')
  else true

/-- `net/url.shouldEscape` in `encodeHost` mode: alphanumerics, the host
sub-delimiters listed in RFC 3986 plus `[]<>` and the double quote, and
`-_.~` are kept; everything else is escaped.  (`Char.ofNat 39` is the
apostrophe and `Char.ofNat 34` the double quote.) -/
def shouldEscapeHost (c : Char) : Bool :=
  if c.isAlpha || c.isDigit then false
  else if c = '!' || c = '$' || c = '&' || c = Char.ofNat 39 || c = '(' ||
          c = ')' || c = '*' || c = '+' || c = ',' || c = ';' || c = '=' ||
          c = ':' || c = '[' || c = ']' || c = '<' || c = '>' ||
          c = Char.ofNat 34 then false
  else if c = '-' || c = '_' || c = '.' || c = '~' then false
  else true

/-- Split a character list at every slash (an empty list yields one empty
segment, matching `strings.Split` semantics). -/
def splitOnSlash : List Char → List (List Char)
  | [] => [[]]
  | c :: cs =>
    if c = '/' then [] :: splitOnSlash cs
    else
      match splitOnSlash cs with
      | [] => [[c]]
      | seg :: segs => (c :: seg) :: segs

/-- Join segments with a slash separator. -/
def joinWithSlash : List (List Char) → List Char
  | [] => []
  | [seg] => seg
  | seg :: segs => seg ++ '/' :: joinWithSlash segs

/-- Does the path start with a slash? -/
def isRooted : List Char → Bool
  | [] => false
  | c :: _ => c = '/'

/-- The segment-stack form of Go `path.Clean`'s loop: empty and `.`
segments are dropped; `..` cancels the preceding real segment, is dropped
at the root, and is kept when there is nothing left to cancel in a
relative path; other segments are pushed. -/
def cleanSegments (rooted : Bool) (stack : List (List Char)) : List (List Char) → List (List Char)
  | [] => stack.reverse
  | seg :: rest =>
    if seg = [] ∨ seg = ['.'] then cleanSegments rooted stack rest
    else if seg = ['.', '.'] then
      match stack with
      | [] =>
        if rooted then cleanSegments rooted [] rest
        else cleanSegments rooted [seg] rest
      | top :: stack' =>
        if top = ['.', '.'] then cleanSegments rooted (seg :: stack) rest
        else cleanSegments rooted stack' rest
    else cleanSegments rooted (seg :: stack) rest

/-- Go `path.Clean` (lexical cleanup). -/
def pathClean (p : List Char) : List Char :=
  if p = [] then ['.']
  else
    let segs := cleanSegments (isRooted p) [] (splitOnSlash p)
    if segs = [] then (if isRooted p then ['/'] else ['.'])
    else (if isRooted p then ['/'] else []) ++ joinWithSlash segs

/-- Go `path.Join`: all-empty input yields the empty path; otherwise the
elements from the first non-empty one are joined with slashes and cleaned. -/
def pathJoin : List (List Char) → List Char
  | [] => []
  | e :: rest => if e = [] then pathJoin rest else pathClean (joinWithSlash (e :: rest))

/-- `url.URL.String()` for a URL with only `Scheme`, `Host` and `Path`
set (no user, opaque part, query or fragment), as in `spiffeID`:
`scheme:` then `//` and the escaped host, then the escaped path with a
slash inserted when the path is relative and a host is present. -/
def urlString (scheme host p : List Char) : List Char :=
  (if scheme = [] then [] else scheme ++ [':']) ++
  (if scheme = [] ∧ host = [] then []
   else '/' :: '/' :: escapeWith shouldEscapeHost host) ++
  (let ep := escapeWith shouldEscapePath p
   if ep ≠ [] ∧ isRooted ep = false ∧ host ≠ [] then '/' :: ep else ep)

/-! ## Constants from the source -/

/-- `pluginName`. -/
def pluginNameStr : String := "iid_attestor"

/-- `maxSecondsBetweenDeviceAttachments` (an `int64` in the source). -/
def maxSecondsBetweenDeviceAttachments : Int := 60

/-- The first fixed `path.Join` element of `spiffeID`. -/
def spireSeg : String := "spire"

/-- The second fixed `path.Join` element of `spiffeID`. -/
def agentSeg : String := "agent"

/-- The URL scheme used by `spiffeID`. -/
def spiffeScheme : String := "spiffe"

/-- `awsCaCertPEM`: the AWS CA certificate embedded in the binary at build
time.  `Configure` always parses this constant. -/
def awsCaCertPEM : String := "-----BEGIN CERTIFICATE-----\nMIIDIjCCAougAwIBAgIJAKnL4UEDMN/FMA0GCSqGSIb3DQEBBQUAMGoxCzAJBgNV\nBAYTAlVTMRMwEQYDVQQIEwpXYXNoaW5ndG9uMRAwDgYDVQQHEwdTZWF0dGxlMRgw\nFgYDVQQKEw9BbWF6b24uY29tIEluYy4xGjAYBgNVBAMTEWVjMi5hbWF6b25hd3Mu\nY29tMB4XDTE0MDYwNTE0MjgwMloXDTI0MDYwNTE0MjgwMlowajELMAkGA1UEBhMC\nVVMxEzARBgNVBAgTCldhc2hpbmd0b24xEDAOBgNVBAcTB1NlYXR0bGUxGDAWBgNV\nBAoTD0FtYXpvbi5jb20gSW5jLjEaMBgGA1UEAxMRZWMyLmFtYXpvbmF3cy5jb20w\ngZ8wDQYJKoZIhvcNAQEBBQADgY0AMIGJAoGBAIe9GN//SRK2knbjySG0ho3yqQM3\ne2TDhWO8D2e8+XZqck754gFSo99AbT2RmXClambI7xsYHZFapbELC4H91ycihvrD\njbST1ZjkLQgga0NE1q43eS68ZeTDccScXQSNivSlzJZS8HJZjgqzBlXjZftjtdJL\nXeE4hwvo0sD4f3j9AgMBAAGjgc8wgcwwHQYDVR0OBBYEFCXWzAgVyrbwnFncFFIs\n77VBdlE4MIGcBgNVHSMEgZQwgZGAFCXWzAgVyrbwnFncFFIs77VBdlE4oW6kbDBq\nMQswCQYDVQQGEwJVUzETMBEGA1UECBMKV2FzaGluZ3RvbjEQMA4GA1UEBxMHU2Vh\ndHRsZTEYMBYGA1UEChMPQW1hem9uLmNvbSBJbmMuMRowGAYDVQQDExFlYzIuYW1h\nem9uYXdzLmNvbYIJAKnL4UEDMN/FMAwGA1UdEwQFMAMBAf8wDQYJKoZIhvcNAQEF\nBQADgYEAFYcz1OgEhQBXIwIdsgCOS8vEtiJYF+j9uO6jz7VOmJqO+pRlAbRlvY8T\nC1haGgSI/A1uZUKs/Zfnph0oEI0/hu1IIJ/SKBDtN5lvmZ/IzbOPIJWirlsllQIQ\n7zvWbGd9c9+Rm3p04oTvhup99la7kZqevJK0QRdD/6NpCKsqP/0=\n-----END CERTIFICATE-----"

/-- The head of every derived identity: scheme, separator, and (then)
the trust domain. -/
def spiffeHead : String := "spiffe://"

/-- The fixed path section between the trust domain and the account id. -/
def spiffeMid : String := "/spire/agent/iid_attestor/"

/-- A single slash, as a string. -/
def slashStr : String := "/"

/-- Characters that pass through `path.Join` and `URL.String()`
untouched when used inside a path segment: alphanumerics and `-_~`
(unescaped by `net/url`, not a slash, not a dot). -/
def isPlainSegmentChar (c : Char) : Bool :=
  c.isAlpha || c.isDigit || c = '-' || c = '_' || c = '~'

/-- Characters that `URL.String()` writes untouched in the host
position and that cannot collide with the path separator: plain segment
characters plus the dot (hosts are not path-cleaned). -/
def isPlainHostChar (c : Char) : Bool :=
  isPlainSegmentChar c || c = '.'

/-- A well-formed (URI-plain, non-empty) path segment. -/
def isPlainSegment (s : String) : Bool :=
  !s.data.isEmpty && s.data.all isPlainSegmentChar

/-- A well-formed (URI-plain, non-empty) trust-domain host. -/
def isPlainHost (s : String) : Bool :=
  !s.data.isEmpty && s.data.all isPlainHostChar

/-! ## Identity derivation (`IIDAttestorPlugin.spiffeID`) -/

/-- `spiffeID`: `path.Join("spire", "agent", pluginName, accountId,
instanceId)` placed in `url.URL{Scheme: "spiffe", Host: trustDomain,
Path: ...}` and rendered with `URL.String()`. -/
def spiffeID (trustDomain accountId instanceId : String) : String :=
  String.mk (urlString spiffeScheme.data trustDomain.data
    (pathJoin [spireSeg.data, agentSeg.data, pluginNameStr.data,
               accountId.data, instanceId.data]))

/-! ## Attest (`IIDAttestorPlugin.Attest`) -/

/-- The fallible external library calls made by `Attest`, passed as an
explicit environment: JSON unmarshalling of the payload and of the
document, `sha256.Sum256`, `base64.StdEncoding.DecodeString`,
`rsa.VerifyPKCS1v15` and the EC2 `DescribeInstances` query (region and
instance id, matching the `ec2.New(session, region)` /
`DescribeInstancesInput{InstanceIds: [instanceId]}` call). -/
structure AttestEnv where
  unmarshalIidAttestedData : String → Except String IidAttestedData
  unmarshalInstanceIdentityDocument : String → Except String InstanceIdentityDocument
  sha256Sum : String → List Nat
  base64DecodeString : String → Except String (List Nat)
  rsaVerifyPKCS1v15 : RsaPublicKey → List Nat → List Nat → Except String Unit
  describeInstances : String → String → Except String DescribeInstancesOutput

/-- Locate the first block-device mapping whose `DeviceName` equals the
instance's `RootDeviceName` — the source's indexed loop records the first
matching index (or `-1`, modelled by `none`) and then re-reads the mapping
at that index, i.e. it yields the first matching element. -/
def locateRootDeviceMapping (rootDeviceName : String) : List BlockDeviceMapping → Option BlockDeviceMapping
  | [] => none
  | bdm :: rest =>
    if bdm.deviceName = rootDeviceName then some bdm
    else locateRootDeviceMapping rootDeviceName rest

/-- `IIDAttestorPlugin.Attest`, step for step:
unmarshal the payload, unmarshal the IID, fail on the replay flag,
hash the raw document, base64-decode the signature, verify it with
RSA PKCS#1 v1.5 over SHA-256, query `DescribeInstances`, then index
`Reservations[0].Instances[0]` and `NetworkInterfaces[0]` without bounds
checks (`crash` on the empty list), check the device index, locate the
root block-device mapping, dereference its `Ebs` pointer without a nil
check (`crash` on `none`), and enforce the 60-second attach-time
disparity bound.  The disparity is
`int64(math.Abs(float64(a.Unix() - b.Unix())))`, i.e. `(a - b).natAbs`
(the float conversion is exact for differences below `2^53`). -/
def Attest (env : AttestEnv) (p : PluginState) (req : AttestRequest) : AttestOutcome :=
  match env.unmarshalIidAttestedData req.attestedData with
  | .error _ => .denied .malformedAttestedData
  | .ok attestedData =>
    match env.unmarshalInstanceIdentityDocument attestedData.document with
    | .error _ => .denied .malformedIID
    | .ok doc =>
      if req.attestedBefore then .denied .replayDetected
      else
        let docHash := env.sha256Sum attestedData.document
        match env.base64DecodeString attestedData.signature with
        | .error _ => .denied .signatureDecodeFailed
        | .ok sigBytes =>
          match env.rsaVerifyPKCS1v15 p.awsCaCertPublicKey docHash sigBytes with
          | .error _ => .denied .signatureInvalid
          | .ok _ =>
            match env.describeInstances doc.region doc.instanceId with
            | .error _ => .denied .providerQueryFailed
            | .ok result =>
              match result.reservations with
              | [] => .crash
              | reservation :: _ =>
                match reservation.instances with
                | [] => .crash
                | inst :: _ =>
                  match inst.networkInterfaces with
                  | [] => .crash
                  | iface :: _ =>
                    if iface.attachment.deviceIndex ≠ 0 then
                      .denied (.unexpectedTopology iface.attachment.deviceIndex)
                    else
                      match locateRootDeviceMapping inst.rootDeviceName inst.blockDeviceMappings with
                      | none => .denied .rootDeviceNotFound
                      | some bdm =>
                        match bdm.ebs with
                        | none => .crash
                        | some ebs =>
                          let disparity : Int :=
                            ((iface.attachment.attachTime - ebs.attachTime).natAbs : Int)
                          if disparity > maxSecondsBetweenDeviceAttachments then
                            .denied (.attachTimeDisparity disparity)
                          else
                            .valid (spiffeID p.trustDomain doc.accountId doc.instanceId)

/-! ## Configure (`IIDAttestorPlugin.Configure`) -/

/-- `IIDAttestorConfig` (HCL: `trust_domain`). -/
structure IIDAttestorConfig where
  trustDomain : String
deriving DecidableEq

/-- Opaque stand-in for the `hcl` AST node returned by `hcl.Parse`. -/
structure HclTree where
  raw : String
deriving DecidableEq

/-- A parsed certificate's public key: either RSA or some other family
(the source's type assertion `.(*rsa.PublicKey)` fails on the latter). -/
inductive CertPublicKey where
  | rsa (key : RsaPublicKey)
  | nonRsa (algo : String)
deriving DecidableEq

/-- The field of an `x509.Certificate` the source reads. -/
structure Certificate where
  publicKey : CertPublicKey
deriving DecidableEq

/-- `spi.ConfigureRequest`: an opaque HCL configuration string.  Note it
carries no certificate — the trusted root is the embedded constant. -/
structure ConfigureRequest where
  configuration : String
deriving DecidableEq

/-- The error kinds of `Configure`, one per early-return in the source. -/
inductive ConfigureError where
  | hclParseFailed
  | hclDecodeFailed
  | certificateParseFailed
  | unsupportedKeyType
deriving DecidableEq

/-- The fallible external library calls made by `Configure`: `hcl.Parse`,
`hcl.DecodeObject`, and `pem.Decode` + `x509.ParseCertificate` combined
into one certificate parser applied to a PEM string. -/
structure ConfigureEnv where
  hclParse : String → Except String HclTree
  hclDecodeObject : HclTree → Except String IIDAttestorConfig
  parseCertificate : String → Except String Certificate

/-- `IIDAttestorPlugin.Configure`, step for step: parse the HCL payload,
decode it into `IIDAttestorConfig`, parse the embedded `awsCaCertPEM`
constant (not anything from the request), require an RSA public key, and
only then — under the lock — overwrite the trust domain and the stored
public key together.  Returns the new plugin state and the call's result. -/
def Configure (env : ConfigureEnv) (p : PluginState) (req : ConfigureRequest) :
    PluginState × Except ConfigureError Unit :=
  match env.hclParse req.configuration with
  | .error _ => (p, .error .hclParseFailed)
  | .ok hclTree =>
    match env.hclDecodeObject hclTree with
    | .error _ => (p, .error .hclDecodeFailed)
    | .ok config =>
      match env.parseCertificate awsCaCertPEM with
      | .error _ => (p, .error .certificateParseFailed)
      | .ok awsCaCert =>
        match awsCaCert.publicKey with
        | .nonRsa _ => (p, .error .unsupportedKeyType)
        | .rsa key =>
          ({ p with trustDomain := config.trustDomain, awsCaCertPublicKey := key },
           .ok ())

/-! ## Concrete example values (used by witnesses and counterexamples) -/

def tdEx : String := "example.org"

def acctEx : String := "123456789012"

def instIdEx : String := "i-0abcdef123"

def regionEx : String := "us-east-1"

def keyEx : RsaPublicKey := ⟨2048, 65537⟩

def pStateEx : PluginState := ⟨tdEx, keyEx⟩

def docStrEx : String := "iid-document-json"

def sigStrEx : String := "iid-signature-b64"

def adEx : IidAttestedData := ⟨docStrEx, sigStrEx⟩

def docEx : InstanceIdentityDocument := ⟨acctEx, instIdEx, regionEx⟩

def payloadEx : String := "attestation-payload"

def reqEx : AttestRequest := ⟨payloadEx, false⟩

def reqReplay : AttestRequest := ⟨payloadEx, true⟩

def rootNameEx : String := "/dev/xvda"

def instWithTimes (t1 t2 : Int) : Ec2Instance :=
  ⟨[⟨⟨0, t1⟩⟩], [⟨rootNameEx, some ⟨t2⟩⟩], rootNameEx⟩

def instNoInterfaces : Ec2Instance := ⟨[], [⟨rootNameEx, some ⟨1000⟩⟩], rootNameEx⟩

def instNoEbs : Ec2Instance := ⟨[⟨⟨0, 1000⟩⟩], [⟨rootNameEx, none⟩], rootNameEx⟩

def envWithInst (inst : Ec2Instance) : AttestEnv :=
  ⟨fun _ => .ok adEx, fun _ => .ok docEx, fun _ => [], fun _ => .ok [],
   fun _ _ _ => .ok (), fun _ _ => .ok ⟨[⟨[inst]⟩]⟩⟩

def envEx : AttestEnv := envWithInst (instWithTimes 1000 1030)

def failMsg : String := "failure"

def envProviderFail : AttestEnv :=
  ⟨fun _ => .ok adEx, fun _ => .ok docEx, fun _ => [], fun _ => .ok [],
   fun _ _ _ => .ok (), fun _ _ => .error failMsg⟩

def envEmptyReservations : AttestEnv :=
  ⟨fun _ => .ok adEx, fun _ => .ok docEx, fun _ => [], fun _ => .ok [],
   fun _ _ _ => .ok (), fun _ _ => .ok ⟨[]⟩⟩

def slashyAcctA : String := "a/b"

def slashyInstA : String := "c"

def slashyAcctB : String := "a"

def slashyInstB : String := "b/c"

def rsaKeyOfPem (s : String) : RsaPublicKey := ⟨((s.data.drop 28).headD ' ').toNat, 65537⟩

def envConfC8 : ConfigureEnv :=
  ⟨fun s => .ok ⟨s⟩, fun t => .ok ⟨t.raw⟩, fun s => .ok ⟨CertPublicKey.rsa (rsaKeyOfPem s)⟩⟩

def otherRootPem : String := "-----BEGIN CERTIFICATE-----\nOPERATORSUPPLIEDROOT\n-----END CERTIFICATE-----"

def reqOtherCert : ConfigureRequest := ⟨otherRootPem⟩

def tdConfigStr : String := "trust-domain-config"

def reqTrustDomainOnly : ConfigureRequest := ⟨tdConfigStr⟩

def envConfParseFail : ConfigureEnv :=
  ⟨fun _ => .error failMsg, fun t => .ok ⟨t.raw⟩, fun _ => .ok ⟨CertPublicKey.rsa keyEx⟩⟩

/-! ## Lemmas: plain characters survive escaping and path cleanup -/

theorem shouldEscapePath_of_plain {c : Char} (h : isPlainSegmentChar c = true) :
    shouldEscapePath c = false := by
  simp only [isPlainSegmentChar, Bool.or_eq_true, decide_eq_true_eq] at h
  rcases h with (((h | h) | h) | h) | h
  · simp [shouldEscapePath, h]
  · simp [shouldEscapePath, h]
  · subst h; decide
  · subst h; decide
  · subst h; decide

theorem shouldEscapeHost_of_plain {c : Char} (h : isPlainHostChar c = true) :
    shouldEscapeHost c = false := by
  simp only [isPlainHostChar, isPlainSegmentChar, Bool.or_eq_true, decide_eq_true_eq] at h
  rcases h with ((((h | h) | h) | h) | h) | h
  · simp [shouldEscapeHost, h]
  · simp [shouldEscapeHost, h]
  · subst h; decide
  · subst h; decide
  · subst h; decide
  · subst h; decide

theorem plainSegmentChar_ne_slash {c : Char} (h : isPlainSegmentChar c = true) : c ≠ '/' := by
  intro he; subst he; revert h; decide

theorem plainHostChar_ne_slash {c : Char} (h : isPlainHostChar c = true) : c ≠ '/' := by
  intro he; subst he; revert h; decide

theorem plainSegmentChar_ne_dot {c : Char} (h : isPlainSegmentChar c = true) : c ≠ '.' := by
  intro he; subst he; revert h; decide

theorem escapeWith_eq_self {sel : Char → Bool} {cs : List Char}
    (h : ∀ c ∈ cs, sel c = false) : escapeWith sel cs = cs := by
  induction cs with
  | nil => rfl
  | cons c cs ih =>
    have hc : sel c = false := h c (List.mem_cons_self c cs)
    simp [escapeWith, hc, ih (fun d hd => h d (List.mem_cons_of_mem _ hd))]

theorem splitOnSlash_noslash {s : List Char} (h : ∀ c ∈ s, c ≠ '/') :
    splitOnSlash s = [s] := by
  induction s with
  | nil => rfl
  | cons c cs ih =>
    have hc : c ≠ '/' := h c (List.mem_cons_self _ _)
    simp [splitOnSlash, hc, ih (fun d hd => h d (List.mem_cons_of_mem _ hd))]

theorem splitOnSlash_append {s : List Char} (cs : List Char) (h : ∀ c ∈ s, c ≠ '/') :
    splitOnSlash (s ++ '/' :: cs) = s :: splitOnSlash cs := by
  induction s with
  | nil => simp [splitOnSlash]
  | cons c s ih =>
    have hc : c ≠ '/' := h c (List.mem_cons_self _ _)
    have ih' := ih (fun d hd => h d (List.mem_cons_of_mem _ hd))
    simp [splitOnSlash, hc, ih']

theorem cleanSegments_plain {rooted : Bool} {segs stack : List (List Char)}
    (h : ∀ s ∈ segs, s ≠ [] ∧ s ≠ ['.'] ∧ s ≠ ['.', '.']) :
    cleanSegments rooted stack segs = stack.reverse ++ segs := by
  induction segs generalizing stack with
  | nil => simp [cleanSegments]
  | cons s segs ih =>
    obtain ⟨h1, h2, h3⟩ := h s (List.mem_cons_self _ _)
    have hrest := fun d hd => h d (List.mem_cons_of_mem s hd)
    have hstep : cleanSegments rooted stack (s :: segs) = cleanSegments rooted (s :: stack) segs := by
      simp [cleanSegments, h1, h2, h3]
    rw [hstep, ih hrest]
    simp

theorem plain_list_ne_dots {a : List Char} (ha : ∀ c ∈ a, isPlainSegmentChar c = true) :
    a ≠ ['.'] ∧ a ≠ ['.', '.'] := by
  constructor
  · intro he
    have hm : ('.' : Char) ∈ a := by rw [he]; exact List.mem_cons_self _ _
    exact absurd (ha '.' hm) (by decide)
  · intro he
    have hm : ('.' : Char) ∈ a := by rw [he]; exact List.mem_cons_self _ _
    exact absurd (ha '.' hm) (by decide)

theorem pathJoin_spiffe {a i : List Char}
    (haE : a ≠ []) (ha : ∀ c ∈ a, isPlainSegmentChar c = true)
    (hiE : i ≠ []) (hi : ∀ c ∈ i, isPlainSegmentChar c = true) :
    pathJoin [spireSeg.data, agentSeg.data, pluginNameStr.data, a, i]
      = spireSeg.data ++ '/' :: (agentSeg.data ++ '/' :: (pluginNameStr.data ++ '/' :: (a ++ '/' :: i))) := by
  have hslA : ∀ c ∈ a, c ≠ '/' := fun c hc => plainSegmentChar_ne_slash (ha c hc)
  have hslI : ∀ c ∈ i, c ≠ '/' := fun c hc => plainSegmentChar_ne_slash (hi c hc)
  have hj : joinWithSlash [spireSeg.data, agentSeg.data, pluginNameStr.data, a, i]
      = spireSeg.data ++ '/' :: (agentSeg.data ++ '/' :: (pluginNameStr.data ++ '/' :: (a ++ '/' :: i))) := by
    simp [joinWithSlash]
  have hsplit : splitOnSlash (spireSeg.data ++ '/' :: (agentSeg.data ++ '/' :: (pluginNameStr.data ++ '/' :: (a ++ '/' :: i))))
      = [spireSeg.data, agentSeg.data, pluginNameStr.data, a, i] := by
    rw [splitOnSlash_append _ (by decide), splitOnSlash_append _ (by decide),
        splitOnSlash_append _ (by decide), splitOnSlash_append _ hslA,
        splitOnSlash_noslash hslI]
  have hplain : ∀ s ∈ [spireSeg.data, agentSeg.data, pluginNameStr.data, a, i],
      s ≠ [] ∧ s ≠ ['.'] ∧ s ≠ ['.', '.'] := by
    intro s hs
    simp only [List.mem_cons, List.not_mem_nil, or_false] at hs
    rcases hs with h | h | h | h | h
    · subst h; refine ⟨by decide, by decide, by decide⟩
    · subst h; refine ⟨by decide, by decide, by decide⟩
    · subst h; refine ⟨by decide, by decide, by decide⟩
    · subst h; exact ⟨haE, (plain_list_ne_dots ha).1, (plain_list_ne_dots ha).2⟩
    · subst h; exact ⟨hiE, (plain_list_ne_dots hi).1, (plain_list_ne_dots hi).2⟩
  have hsp : spireSeg.data = ['s', 'p', 'i', 'r', 'e'] := rfl
  have hne : spireSeg.data ++ '/' :: (agentSeg.data ++ '/' :: (pluginNameStr.data ++ '/' :: (a ++ '/' :: i))) ≠ [] := by
    rw [hsp]; simp
  have hroot : isRooted (spireSeg.data ++ '/' :: (agentSeg.data ++ '/' :: (pluginNameStr.data ++ '/' :: (a ++ '/' :: i)))) = false := by
    rw [hsp]; rfl
  have hclean : pathClean (spireSeg.data ++ '/' :: (agentSeg.data ++ '/' :: (pluginNameStr.data ++ '/' :: (a ++ '/' :: i))))
      = spireSeg.data ++ '/' :: (agentSeg.data ++ '/' :: (pluginNameStr.data ++ '/' :: (a ++ '/' :: i))) := by
    rw [pathClean]
    rw [if_neg (by exact hne)]
    simp only [hroot, hsplit]
    rw [cleanSegments_plain hplain]
    simp [joinWithSlash]
  show pathJoin [spireSeg.data, agentSeg.data, pluginNameStr.data, a, i] = _
  rw [pathJoin]
  rw [if_neg (by rw [hsp]; simp)]
  rw [hj, hclean]

theorem urlString_spiffe {host p : List Char}
    (hhostE : host ≠ []) (hhost : ∀ c ∈ host, shouldEscapeHost c = false)
    (hpE : p ≠ []) (hpHead : isRooted p = false) (hp : ∀ c ∈ p, shouldEscapePath c = false) :
    urlString spiffeScheme.data host p
      = spiffeScheme.data ++ ':' :: '/' :: '/' :: (host ++ '/' :: p) := by
  have h1 : escapeWith shouldEscapeHost host = host := escapeWith_eq_self hhost
  have h2 : escapeWith shouldEscapePath p = p := escapeWith_eq_self hp
  have hs : spiffeScheme.data = ['s', 'p', 'i', 'f', 'f', 'e'] := rfl
  rw [urlString, h1, h2]
  rw [if_neg (by rw [hs]; simp)]
  rw [if_neg (by rw [hs]; simp)]
  rw [if_pos ⟨hpE, hpHead, hhostE⟩]
  simp

theorem string_data_inj {s t : String} (h : s.data = t.data) : s = t :=
  congrArg String.mk h

theorem isPlainSegment_parts {s : String} (h : isPlainSegment s = true) :
    s.data ≠ [] ∧ ∀ c ∈ s.data, isPlainSegmentChar c = true := by
  simp only [isPlainSegment, Bool.and_eq_true, Bool.not_eq_true', List.isEmpty_eq_false,
    List.all_eq_true] at h
  exact ⟨by simpa using h.1, h.2⟩

theorem isPlainHost_parts {s : String} (h : isPlainHost s = true) :
    s.data ≠ [] ∧ ∀ c ∈ s.data, isPlainHostChar c = true := by
  simp only [isPlainHost, Bool.and_eq_true, Bool.not_eq_true', List.isEmpty_eq_false,
    List.all_eq_true] at h
  exact ⟨by simpa using h.1, h.2⟩

theorem spiffeID_data_plain {td a i : String}
    (htd : isPlainHost td = true) (ha : isPlainSegment a = true) (hi : isPlainSegment i = true) :
    (spiffeID td a i).data
      = spiffeScheme.data ++ ':' :: '/' :: '/' ::
        (td.data ++ '/' :: (spireSeg.data ++ '/' :: (agentSeg.data ++ '/' ::
          (pluginNameStr.data ++ '/' :: (a.data ++ '/' :: i.data))))) := by
  obtain ⟨htdE, htdC⟩ := isPlainHost_parts htd
  obtain ⟨haE, haC⟩ := isPlainSegment_parts ha
  obtain ⟨hiE, hiC⟩ := isPlainSegment_parts hi
  have hpj := pathJoin_spiffe haE haC hiE hiC
  have hpE : spireSeg.data ++ '/' :: (agentSeg.data ++ '/' :: (pluginNameStr.data ++ '/' :: (a.data ++ '/' :: i.data))) ≠ [] := by
    have : spireSeg.data = ['s', 'p', 'i', 'r', 'e'] := rfl
    rw [this]; simp
  have hpHead : isRooted (spireSeg.data ++ '/' :: (agentSeg.data ++ '/' :: (pluginNameStr.data ++ '/' :: (a.data ++ '/' :: i.data)))) = false := by
    have : spireSeg.data = ['s', 'p', 'i', 'r', 'e'] := rfl
    rw [this]; rfl
  have hpC : ∀ c ∈ spireSeg.data ++ '/' :: (agentSeg.data ++ '/' :: (pluginNameStr.data ++ '/' :: (a.data ++ '/' :: i.data))),
      shouldEscapePath c = false := by
    intro c hc
    simp only [List.mem_append, List.mem_cons] at hc
    rcases hc with hc | hc | hc
    · revert c; decide
    · subst hc; decide
    · rcases hc with hc | hc | hc
      · revert c; decide
      · subst hc; decide
      · rcases hc with hc | hc | hc
        · revert c; decide
        · subst hc; decide
        · rcases hc with hc | hc | hc
          · exact shouldEscapePath_of_plain (haC c hc)
          · subst hc; decide
          · exact shouldEscapePath_of_plain (hiC c hc)
  have hhostC : ∀ c ∈ td.data, shouldEscapeHost c = false :=
    fun c hc => shouldEscapeHost_of_plain (htdC c hc)
  rw [spiffeID, hpj]
  rw [urlString_spiffe htdE hhostC hpE hpHead hpC]

theorem spiffeID_plain {td a i : String}
    (htd : isPlainHost td = true) (ha : isPlainSegment a = true) (hi : isPlainSegment i = true) :
    spiffeID td a i = spiffeHead ++ td ++ spiffeMid ++ a ++ slashStr ++ i := by
  apply string_data_inj
  rw [spiffeID_data_plain htd ha hi]
  simp only [String.data_append]
  have h1 : spiffeScheme.data = ['s', 'p', 'i', 'f', 'f', 'e'] := rfl
  have h2 : spiffeHead.data = ['s', 'p', 'i', 'f', 'f', 'e', ':', '/', '/'] := rfl
  have h3 : spiffeMid.data = ['/', 's', 'p', 'i', 'r', 'e', '/', 'a', 'g', 'e', 'n', 't', '/', 'i', 'i', 'd', '_', 'a', 't', 't', 'e', 's', 't', 'o', 'r', '/'] := rfl
  have h4 : slashStr.data = ['/'] := rfl
  have h5 : spireSeg.data = ['s', 'p', 'i', 'r', 'e'] := rfl
  have h6 : agentSeg.data = ['a', 'g', 'e', 'n', 't'] := rfl
  have h7 : pluginNameStr.data = ['i', 'i', 'd', '_', 'a', 't', 't', 'e', 's', 't', 'o', 'r'] := rfl
  rw [h1, h2, h3, h4, h5, h6, h7]
  simp

theorem splitOnSlash_slash_cons (cs : List Char) : splitOnSlash ('/' :: cs) = [] :: splitOnSlash cs := by
  simp [splitOnSlash]

theorem splitOnSlash_spiffeID {td a i : String}
    (htd : isPlainHost td = true) (ha : isPlainSegment a = true) (hi : isPlainSegment i = true) :
    splitOnSlash (spiffeID td a i).data
      = [['s', 'p', 'i', 'f', 'f', 'e', ':'], [], td.data, spireSeg.data, agentSeg.data,
         pluginNameStr.data, a.data, i.data] := by
  obtain ⟨htdE, htdC⟩ := isPlainHost_parts htd
  obtain ⟨haE, haC⟩ := isPlainSegment_parts ha
  obtain ⟨hiE, hiC⟩ := isPlainSegment_parts hi
  have hslT : ∀ c ∈ td.data, c ≠ '/' := fun c hc => plainHostChar_ne_slash (htdC c hc)
  have hslA : ∀ c ∈ a.data, c ≠ '/' := fun c hc => plainSegmentChar_ne_slash (haC c hc)
  have hslI : ∀ c ∈ i.data, c ≠ '/' := fun c hc => plainSegmentChar_ne_slash (hiC c hc)
  rw [spiffeID_data_plain htd ha hi]
  have hre : spiffeScheme.data ++ ':' :: '/' :: '/' ::
        (td.data ++ '/' :: (spireSeg.data ++ '/' :: (agentSeg.data ++ '/' ::
          (pluginNameStr.data ++ '/' :: (a.data ++ '/' :: i.data)))))
      = (['s', 'p', 'i', 'f', 'f', 'e', ':'] : List Char) ++ '/' ::
        ('/' :: (td.data ++ '/' :: (spireSeg.data ++ '/' :: (agentSeg.data ++ '/' ::
          (pluginNameStr.data ++ '/' :: (a.data ++ '/' :: i.data)))))) := rfl
  rw [hre]
  rw [splitOnSlash_append _ (by decide), splitOnSlash_slash_cons,
      splitOnSlash_append _ hslT, splitOnSlash_append _ (by decide),
      splitOnSlash_append _ (by decide), splitOnSlash_append _ (by decide),
      splitOnSlash_append _ hslA, splitOnSlash_noslash hslI]

/-- C2: for every request with `attestedBefore = true` whose payload and
embedded document both decode, `Attest` denies with the replay error; the
outcome is the same for every hash, base64 and RSA-verification behaviour,
so the signature is never evaluated. -/
theorem attest_replay_fast_fail (env : AttestEnv) (p : PluginState) (req : AttestRequest)
    {ad : IidAttestedData} {doc : InstanceIdentityDocument}
    (h1 : env.unmarshalIidAttestedData req.attestedData = Except.ok ad)
    (h2 : env.unmarshalInstanceIdentityDocument ad.document = Except.ok doc)
    (h3 : req.attestedBefore = true) :
    Attest env p req = AttestOutcome.denied AttestError.replayDetected ∧
    ∀ sha b64 ver,
      Attest { env with sha256Sum := sha, base64DecodeString := b64, rsaVerifyPKCS1v15 := ver } p req
        = AttestOutcome.denied AttestError.replayDetected := by
  constructor
  · simp only [Attest, h1, h2, h3, if_true]
  · intro sha b64 ver
    simp only [Attest, h1, h2, h3, if_true]

/-- C2 witness: a concrete replayed request is denied whatever the
verifier would have said. -/
theorem attest_replay_fast_fail_witness :
    Attest envEx pStateEx reqReplay = AttestOutcome.denied AttestError.replayDetected :=
  (attest_replay_fast_fail envEx pStateEx reqReplay rfl rfl rfl).1

/-- C3 (amended): when the attestation reaches the provenance step, a
`DescribeInstances` error is denied as a provider-query failure, but a
successful response with zero reservations, or with a first reservation
holding zero instances, is indexed without a bounds check and crashes
instead of being denied. -/
theorem attest_provider_query_outcomes (env : AttestEnv) (p : PluginState) (req : AttestRequest)
    {ad : IidAttestedData} {doc : InstanceIdentityDocument} {sig : List Nat}
    (h1 : env.unmarshalIidAttestedData req.attestedData = Except.ok ad)
    (h2 : env.unmarshalInstanceIdentityDocument ad.document = Except.ok doc)
    (h3 : req.attestedBefore = false)
    (h4 : env.base64DecodeString ad.signature = Except.ok sig)
    (h5 : env.rsaVerifyPKCS1v15 p.awsCaCertPublicKey (env.sha256Sum ad.document) sig = Except.ok ()) :
    (∀ msg, env.describeInstances doc.region doc.instanceId = Except.error msg →
       Attest env p req = AttestOutcome.denied AttestError.providerQueryFailed) ∧
    (env.describeInstances doc.region doc.instanceId = Except.ok ⟨[]⟩ →
       Attest env p req = AttestOutcome.crash) ∧
    (∀ reservationsTail,
       env.describeInstances doc.region doc.instanceId = Except.ok ⟨⟨[]⟩ :: reservationsTail⟩ →
       Attest env p req = AttestOutcome.crash) := by
  refine ⟨fun msg h6 => ?_, fun h6 => ?_, fun reservationsTail h6 => ?_⟩ <;>
    simp only [Attest, h1, h2, h3, h4, h5, h6, if_false, Bool.false_eq_true]

/-- C3 witness: concrete instantiations of all three outcomes. -/
theorem attest_provider_query_outcomes_witness :
    Attest envProviderFail pStateEx reqEx = AttestOutcome.denied AttestError.providerQueryFailed ∧
    Attest envEmptyReservations pStateEx reqEx = AttestOutcome.crash :=
  ⟨(attest_provider_query_outcomes envProviderFail pStateEx reqEx rfl rfl rfl rfl rfl).1 failMsg rfl,
   (attest_provider_query_outcomes envEmptyReservations pStateEx reqEx rfl rfl rfl rfl rfl).2.1 rfl⟩

/-- C3 counterexample (to the claim as stated): a successful provider
response with zero matching reservations makes `Attest` crash on an
out-of-range index — it is not denied with a provider-query failure. -/
theorem attest_zero_reservations_not_denied_cex :
    Attest envEmptyReservations pStateEx reqEx = AttestOutcome.crash ∧
    Attest envEmptyReservations pStateEx reqEx ≠ AttestOutcome.denied AttestError.providerQueryFailed := by
  decide

/-- C4: when the provenance check reaches the disparity step, the outcome
is decided by the absolute attach-time difference in whole seconds against
the fixed 60-second bound: at most 60 seconds (including exactly 60 and 0)
passes, strictly more than 60 (e.g. 61) is denied with the disparity error. -/
theorem attest_disparity_boundary (env : AttestEnv) (p : PluginState) (req : AttestRequest)
    {ad : IidAttestedData} {doc : InstanceIdentityDocument} {sig : List Nat}
    {result : DescribeInstancesOutput} {reservation : Reservation}
    {reservationsTail : List Reservation} {inst : Ec2Instance} {instancesTail : List Ec2Instance}
    {iface : NetworkInterface} {interfacesTail : List NetworkInterface}
    {bdm : BlockDeviceMapping} {ebs : EbsBlockDevice}
    (h1 : env.unmarshalIidAttestedData req.attestedData = Except.ok ad)
    (h2 : env.unmarshalInstanceIdentityDocument ad.document = Except.ok doc)
    (h3 : req.attestedBefore = false)
    (h4 : env.base64DecodeString ad.signature = Except.ok sig)
    (h5 : env.rsaVerifyPKCS1v15 p.awsCaCertPublicKey (env.sha256Sum ad.document) sig = Except.ok ())
    (h6 : env.describeInstances doc.region doc.instanceId = Except.ok result)
    (h7 : result.reservations = reservation :: reservationsTail)
    (h8 : reservation.instances = inst :: instancesTail)
    (h9 : inst.networkInterfaces = iface :: interfacesTail)
    (h10 : iface.attachment.deviceIndex = 0)
    (h11 : locateRootDeviceMapping inst.rootDeviceName inst.blockDeviceMappings = some bdm)
    (h12 : bdm.ebs = some ebs) :
    Attest env p req =
      if ((iface.attachment.attachTime - ebs.attachTime).natAbs : Int) > maxSecondsBetweenDeviceAttachments
      then AttestOutcome.denied
        (AttestError.attachTimeDisparity ((iface.attachment.attachTime - ebs.attachTime).natAbs : Int))
      else AttestOutcome.valid (spiffeID p.trustDomain doc.accountId doc.instanceId) := by
  simp only [Attest, h1, h2, h3, h4, h5, h6, h7, h8, h9, h10, h11, h12, if_false,
    Bool.false_eq_true, ne_eq, not_true_eq_false, ite_false]

/-- C4 witness: disparity 60 passes, 61 is denied, 0 passes. -/
theorem attest_disparity_boundary_witness :
    Attest (envWithInst (instWithTimes 1000 1060)) pStateEx reqEx
      = AttestOutcome.valid (spiffeID tdEx acctEx instIdEx) ∧
    Attest (envWithInst (instWithTimes 1000 1061)) pStateEx reqEx
      = AttestOutcome.denied (AttestError.attachTimeDisparity 61) ∧
    Attest (envWithInst (instWithTimes 1000 1000)) pStateEx reqEx
      = AttestOutcome.valid (spiffeID tdEx acctEx instIdEx) := by
  refine ⟨?_, ?_, ?_⟩
  · rw [attest_disparity_boundary (envWithInst (instWithTimes 1000 1060)) pStateEx reqEx
      rfl rfl rfl rfl rfl rfl rfl rfl rfl rfl (by rfl) rfl]
    decide
  · rw [attest_disparity_boundary (envWithInst (instWithTimes 1000 1061)) pStateEx reqEx
      rfl rfl rfl rfl rfl rfl rfl rfl rfl rfl (by rfl) rfl]
    decide
  · rw [attest_disparity_boundary (envWithInst (instWithTimes 1000 1000)) pStateEx reqEx
      rfl rfl rfl rfl rfl rfl rfl rfl rfl rfl (by rfl) rfl]
    decide

/-- Helper for C6: the source's loop finds the first matching mapping. -/
theorem locateRootDeviceMapping_first {root : String} {pre post : List BlockDeviceMapping}
    {bdm : BlockDeviceMapping}
    (hpre : ∀ b ∈ pre, b.deviceName ≠ root) (hb : bdm.deviceName = root) :
    locateRootDeviceMapping root (pre ++ bdm :: post) = some bdm := by
  induction pre with
  | nil => simp [locateRootDeviceMapping, hb]
  | cons x pre ih =>
    have hx := hpre x (List.mem_cons_self _ _)
    simp [locateRootDeviceMapping, hx, ih (fun b hbm => hpre b (List.mem_cons_of_mem _ hbm))]

/-- C5: reaching the topology step, everything is decided by the first
network interface of the sequence: a non-zero device index is denied as
unexpected topology, and device index 0 passes — the continuation shown on
the right-hand side does not depend on the remaining interfaces at all. -/
theorem attest_topology_first_interface (env : AttestEnv) (p : PluginState) (req : AttestRequest)
    {ad : IidAttestedData} {doc : InstanceIdentityDocument} {sig : List Nat}
    {result : DescribeInstancesOutput} {reservation : Reservation}
    {reservationsTail : List Reservation} {inst : Ec2Instance} {instancesTail : List Ec2Instance}
    {iface : NetworkInterface} {interfacesTail : List NetworkInterface}
    (h1 : env.unmarshalIidAttestedData req.attestedData = Except.ok ad)
    (h2 : env.unmarshalInstanceIdentityDocument ad.document = Except.ok doc)
    (h3 : req.attestedBefore = false)
    (h4 : env.base64DecodeString ad.signature = Except.ok sig)
    (h5 : env.rsaVerifyPKCS1v15 p.awsCaCertPublicKey (env.sha256Sum ad.document) sig = Except.ok ())
    (h6 : env.describeInstances doc.region doc.instanceId = Except.ok result)
    (h7 : result.reservations = reservation :: reservationsTail)
    (h8 : reservation.instances = inst :: instancesTail)
    (h9 : inst.networkInterfaces = iface :: interfacesTail) :
    (iface.attachment.deviceIndex ≠ 0 →
       Attest env p req = AttestOutcome.denied (AttestError.unexpectedTopology iface.attachment.deviceIndex)) ∧
    (iface.attachment.deviceIndex = 0 →
       Attest env p req =
         match locateRootDeviceMapping inst.rootDeviceName inst.blockDeviceMappings with
         | none => AttestOutcome.denied AttestError.rootDeviceNotFound
         | some bdm =>
           match bdm.ebs with
           | none => AttestOutcome.crash
           | some ebs =>
             if ((iface.attachment.attachTime - ebs.attachTime).natAbs : Int) > maxSecondsBetweenDeviceAttachments
             then AttestOutcome.denied
               (AttestError.attachTimeDisparity ((iface.attachment.attachTime - ebs.attachTime).natAbs : Int))
             else AttestOutcome.valid (spiffeID p.trustDomain doc.accountId doc.instanceId)) := by
  constructor
  · intro hd
    simp only [Attest, h1, h2, h3, h4, h5, h6, h7, h8, h9, if_false, Bool.false_eq_true,
      ne_eq, hd, not_false_eq_true, ite_true]
  · intro hd
    simp only [Attest, h1, h2, h3, h4, h5, h6, h7, h8, h9, hd, if_false, Bool.false_eq_true,
      ne_eq, not_true_eq_false, ite_false]

/-- C5 witness: a zero first device index passes with one interface, and a
non-zero one is denied. -/
theorem attest_topology_first_interface_witness :
    Attest (envWithInst (instWithTimes 1000 1030)) pStateEx reqEx
      = AttestOutcome.valid (spiffeID tdEx acctEx instIdEx) ∧
    Attest (envWithInst ⟨[⟨⟨2, 1000⟩⟩], [⟨rootNameEx, some ⟨1030⟩⟩], rootNameEx⟩) pStateEx reqEx
      = AttestOutcome.denied (AttestError.unexpectedTopology 2) := by
  constructor
  · rw [(attest_topology_first_interface (envWithInst (instWithTimes 1000 1030)) pStateEx reqEx
      rfl rfl rfl rfl rfl rfl rfl rfl rfl).2 rfl]
    decide
  · exact (attest_topology_first_interface
      (envWithInst ⟨[⟨⟨2, 1000⟩⟩], [⟨rootNameEx, some ⟨1030⟩⟩], rootNameEx⟩) pStateEx reqEx
      rfl rfl rfl rfl rfl rfl rfl rfl rfl).1 (by decide)

/-- C6: reaching the root-device step, a mapping sequence with no name
match — of any length — is denied with the root-device error; when a match
exists, the first matching mapping in sequence order is the one whose EBS
attach time feeds the disparity check. -/
theorem attest_root_device_lookup (env : AttestEnv) (p : PluginState) (req : AttestRequest)
    {ad : IidAttestedData} {doc : InstanceIdentityDocument} {sig : List Nat}
    {result : DescribeInstancesOutput} {reservation : Reservation}
    {reservationsTail : List Reservation} {inst : Ec2Instance} {instancesTail : List Ec2Instance}
    {iface : NetworkInterface} {interfacesTail : List NetworkInterface}
    (h1 : env.unmarshalIidAttestedData req.attestedData = Except.ok ad)
    (h2 : env.unmarshalInstanceIdentityDocument ad.document = Except.ok doc)
    (h3 : req.attestedBefore = false)
    (h4 : env.base64DecodeString ad.signature = Except.ok sig)
    (h5 : env.rsaVerifyPKCS1v15 p.awsCaCertPublicKey (env.sha256Sum ad.document) sig = Except.ok ())
    (h6 : env.describeInstances doc.region doc.instanceId = Except.ok result)
    (h7 : result.reservations = reservation :: reservationsTail)
    (h8 : reservation.instances = inst :: instancesTail)
    (h9 : inst.networkInterfaces = iface :: interfacesTail)
    (h10 : iface.attachment.deviceIndex = 0) :
    ((∀ b ∈ inst.blockDeviceMappings, b.deviceName ≠ inst.rootDeviceName) →
       Attest env p req = AttestOutcome.denied AttestError.rootDeviceNotFound) ∧
    (∀ pre bdm post, inst.blockDeviceMappings = pre ++ bdm :: post →
       (∀ b ∈ pre, b.deviceName ≠ inst.rootDeviceName) →
       bdm.deviceName = inst.rootDeviceName →
       ∀ ebs, bdm.ebs = some ebs →
       Attest env p req =
         if ((iface.attachment.attachTime - ebs.attachTime).natAbs : Int) > maxSecondsBetweenDeviceAttachments
         then AttestOutcome.denied
           (AttestError.attachTimeDisparity ((iface.attachment.attachTime - ebs.attachTime).natAbs : Int))
         else AttestOutcome.valid (spiffeID p.trustDomain doc.accountId doc.instanceId)) := by
  have hnone : ∀ {l : List BlockDeviceMapping}, (∀ b ∈ l, b.deviceName ≠ inst.rootDeviceName) →
      locateRootDeviceMapping inst.rootDeviceName l = none := by
    intro l
    induction l with
    | nil => intro _; rfl
    | cons x l ih =>
      intro hall
      have hx := hall x (List.mem_cons_self _ _)
      simp [locateRootDeviceMapping, hx, ih (fun b hb => hall b (List.mem_cons_of_mem _ hb))]
  constructor
  · intro hall
    simp only [Attest, h1, h2, h3, h4, h5, h6, h7, h8, h9, h10, hnone hall, if_false,
      Bool.false_eq_true, ne_eq, not_true_eq_false, ite_false]
  · intro pre bdm post hsplit hpre hb ebs hebs
    have hloc : locateRootDeviceMapping inst.rootDeviceName inst.blockDeviceMappings = some bdm := by
      rw [hsplit]; exact locateRootDeviceMapping_first hpre hb
    simp only [Attest, h1, h2, h3, h4, h5, h6, h7, h8, h9, h10, hloc, hebs, if_false,
      Bool.false_eq_true, ne_eq, not_true_eq_false, ite_false]

/-- C6 witness: no match among two mappings is denied; with a decoy first
mapping, the second (first matching) mapping's attach time decides. -/
theorem attest_root_device_lookup_witness :
    Attest (envWithInst ⟨[⟨⟨0, 1000⟩⟩], [⟨tdConfigStr, some ⟨1030⟩⟩, ⟨docStrEx, some ⟨1030⟩⟩], rootNameEx⟩)
        pStateEx reqEx
      = AttestOutcome.denied AttestError.rootDeviceNotFound ∧
    Attest (envWithInst ⟨[⟨⟨0, 1000⟩⟩], [⟨tdConfigStr, some ⟨5000⟩⟩, ⟨rootNameEx, some ⟨1030⟩⟩], rootNameEx⟩)
        pStateEx reqEx
      = AttestOutcome.valid (spiffeID tdEx acctEx instIdEx) := by
  constructor
  · exact (attest_root_device_lookup
      (envWithInst ⟨[⟨⟨0, 1000⟩⟩], [⟨tdConfigStr, some ⟨1030⟩⟩, ⟨docStrEx, some ⟨1030⟩⟩], rootNameEx⟩)
      pStateEx reqEx rfl rfl rfl rfl rfl rfl rfl rfl rfl rfl).1 (by decide)
  · rw [(attest_root_device_lookup
      (envWithInst ⟨[⟨⟨0, 1000⟩⟩], [⟨tdConfigStr, some ⟨5000⟩⟩, ⟨rootNameEx, some ⟨1030⟩⟩], rootNameEx⟩)
      pStateEx reqEx rfl rfl rfl rfl rfl rfl rfl rfl rfl rfl).2
      [⟨tdConfigStr, some ⟨5000⟩⟩] ⟨rootNameEx, some ⟨1030⟩⟩ [] rfl (by decide) rfl ⟨1030⟩ rfl]
    decide

/-- C1: a request whose payload and document decode, with the replay flag
off, a verifying signature, a provider descriptor whose first interface has
device index 0, a mapping matching the root device name (with EBS data),
and an attach-time disparity of at most 60 whole seconds, is attested valid
with the identity exactly
`spiffe://{trustDomain}/spire/agent/iid_attestor/{accountId}/{instanceId}`
(for well-formed — URI-plain, non-empty — trust domain and claims, which
pass through path joining and URL rendering unchanged). -/
theorem attest_valid_canonical_identity (env : AttestEnv) (p : PluginState) (req : AttestRequest)
    {ad : IidAttestedData} {doc : InstanceIdentityDocument} {sig : List Nat}
    {result : DescribeInstancesOutput} {reservation : Reservation}
    {reservationsTail : List Reservation} {inst : Ec2Instance} {instancesTail : List Ec2Instance}
    {iface : NetworkInterface} {interfacesTail : List NetworkInterface}
    {bdm : BlockDeviceMapping} {ebs : EbsBlockDevice}
    (h1 : env.unmarshalIidAttestedData req.attestedData = Except.ok ad)
    (h2 : env.unmarshalInstanceIdentityDocument ad.document = Except.ok doc)
    (h3 : req.attestedBefore = false)
    (h4 : env.base64DecodeString ad.signature = Except.ok sig)
    (h5 : env.rsaVerifyPKCS1v15 p.awsCaCertPublicKey (env.sha256Sum ad.document) sig = Except.ok ())
    (h6 : env.describeInstances doc.region doc.instanceId = Except.ok result)
    (h7 : result.reservations = reservation :: reservationsTail)
    (h8 : reservation.instances = inst :: instancesTail)
    (h9 : inst.networkInterfaces = iface :: interfacesTail)
    (h10 : iface.attachment.deviceIndex = 0)
    (h11 : locateRootDeviceMapping inst.rootDeviceName inst.blockDeviceMappings = some bdm)
    (h12 : bdm.ebs = some ebs)
    (h13 : ((iface.attachment.attachTime - ebs.attachTime).natAbs : Int) ≤ maxSecondsBetweenDeviceAttachments)
    (h14 : isPlainHost p.trustDomain = true)
    (h15 : isPlainSegment doc.accountId = true)
    (h16 : isPlainSegment doc.instanceId = true) :
    Attest env p req = AttestOutcome.valid
      (spiffeHead ++ p.trustDomain ++ spiffeMid ++ doc.accountId ++ slashStr ++ doc.instanceId) := by
  have hle : ¬ ((iface.attachment.attachTime - ebs.attachTime).natAbs : Int) > maxSecondsBetweenDeviceAttachments :=
    not_lt.mpr h13
  simp only [Attest, h1, h2, h3, h4, h5, h6, h7, h8, h9, h10, h11, h12, hle, if_false,
    Bool.false_eq_true, ne_eq, not_true_eq_false, ite_false]
  exact congrArg AttestOutcome.valid (spiffeID_plain h14 h15 h16)

/-- C1 witness: a fully concrete passing attestation yields the literal
canonical identity string. -/
theorem attest_valid_canonical_identity_witness :
    Attest envEx pStateEx reqEx = AttestOutcome.valid
      (spiffeHead ++ tdEx ++ spiffeMid ++ acctEx ++ slashStr ++ instIdEx) :=
  attest_valid_canonical_identity envEx pStateEx reqEx rfl rfl rfl rfl rfl rfl rfl rfl rfl rfl
    (by rfl) rfl (by decide) (by decide) (by decide) (by decide)

/-- C7 counterexample: identity derivation is not injective over all
distinct triples — a slash inside the account id shifts material into the
instance-id position and collides with a different triple. -/
theorem spiffeID_not_injective_cex :
    spiffeID tdEx slashyAcctA slashyInstA = spiffeID tdEx slashyAcctB slashyInstB ∧
    (slashyAcctA, slashyInstA) ≠ (slashyAcctB, slashyInstB) := by
  decide

/-- C7 (amended): identity derivation is deterministic, and it is injective
over distinct plain triples — trust domain, account id and instance id that
are non-empty and free of separators and URI-escaped characters. -/
theorem spiffeID_deterministic_injective_plain (td a i td' a' i' : String)
    (htd : isPlainHost td = true) (ha : isPlainSegment a = true) (hi : isPlainSegment i = true)
    (htd' : isPlainHost td' = true) (ha' : isPlainSegment a' = true) (hi' : isPlainSegment i' = true) :
    spiffeID td a i = spiffeID td a i ∧
    (spiffeID td a i = spiffeID td' a' i' → td = td' ∧ a = a' ∧ i = i') := by
  refine ⟨rfl, fun heq => ?_⟩
  have h := congrArg (fun s => splitOnSlash s.data) heq
  simp only at h
  rw [splitOnSlash_spiffeID htd ha hi, splitOnSlash_spiffeID htd' ha' hi'] at h
  simp only [List.cons.injEq, and_true] at h
  exact ⟨string_data_inj h.2.2.1, string_data_inj h.2.2.2.2.2.2.1, string_data_inj h.2.2.2.2.2.2.2⟩

/-- C7 witness: the amended statement applied at concrete plain triples. -/
theorem spiffeID_deterministic_injective_plain_witness :
    spiffeID tdEx acctEx instIdEx = spiffeID tdEx acctEx instIdEx ∧
    (tdEx = tdEx ∧ acctEx = acctEx ∧ instIdEx = instIdEx) := by
  have h := spiffeID_deterministic_injective_plain tdEx acctEx instIdEx tdEx acctEx instIdEx
    (by decide) (by decide) (by decide) (by decide) (by decide) (by decide)
  exact ⟨h.1, h.2 rfl⟩

/-- C8 counterexample: the trust anchor's key is derived from the embedded
`awsCaCertPEM` constant, not from anything in the `Configure` request —
two different requests (one carrying a different root certificate as its
payload) produce the same key, the embedded one, and not the key of the
caller's certificate. -/
theorem configure_ignores_request_certificate_cex :
    (Configure envConfC8 pStateEx reqOtherCert).1.awsCaCertPublicKey = rsaKeyOfPem awsCaCertPEM ∧
    (Configure envConfC8 pStateEx reqTrustDomainOnly).1.awsCaCertPublicKey = rsaKeyOfPem awsCaCertPEM ∧
    rsaKeyOfPem awsCaCertPEM ≠ rsaKeyOfPem otherRootPem ∧
    reqOtherCert ≠ reqTrustDomainOnly := by
  refine ⟨rfl, rfl, by decide, by decide⟩

/-- C8 (amended): every successful `Configure` stores the RSA public key
extracted from the build-time embedded AWS CA certificate constant (the
request supplies only configuration text, not a root certificate), and the
call fails when that embedded certificate's key is not RSA. -/
theorem configure_key_from_embedded_constant (env : ConfigureEnv) (p : PluginState)
    (req : ConfigureRequest)
    {hclTree : HclTree} {config : IIDAttestorConfig} {cert : Certificate}
    (h1 : env.hclParse req.configuration = Except.ok hclTree)
    (h2 : env.hclDecodeObject hclTree = Except.ok config)
    (h3 : env.parseCertificate awsCaCertPEM = Except.ok cert) :
    (∀ key, cert.publicKey = CertPublicKey.rsa key →
       Configure env p req
         = ({ p with trustDomain := config.trustDomain, awsCaCertPublicKey := key }, Except.ok ())) ∧
    (∀ algo, cert.publicKey = CertPublicKey.nonRsa algo →
       Configure env p req = (p, Except.error ConfigureError.unsupportedKeyType)) := by
  constructor <;> intro x hx <;> simp only [Configure, h1, h2, h3, hx]

/-- C8 witness: the amended statement at a concrete environment. -/
theorem configure_key_from_embedded_constant_witness :
    Configure envConfC8 pStateEx reqTrustDomainOnly
      = ({ pStateEx with trustDomain := tdConfigStr, awsCaCertPublicKey := rsaKeyOfPem awsCaCertPEM }, Except.ok ()) :=
  (configure_key_from_embedded_constant envConfC8 pStateEx reqTrustDomainOnly rfl rfl rfl).1
    (rsaKeyOfPem awsCaCertPEM) rfl

/-- C9: a `Configure` call that returns an error — at HCL parsing, config
decoding, certificate parsing or the key-type check — leaves the stored
plugin state (trust domain and public key together) exactly as it was. -/
theorem configure_error_preserves_state (env : ConfigureEnv) (p : PluginState)
    (req : ConfigureRequest) (e : ConfigureError)
    (h : (Configure env p req).2 = Except.error e) :
    (Configure env p req).1 = p := by
  cases h1 : env.hclParse req.configuration with
  | error msg => simp [Configure, h1]
  | ok t =>
    cases h2 : env.hclDecodeObject t with
    | error msg => simp [Configure, h1, h2]
    | ok cfg =>
      cases h3 : env.parseCertificate awsCaCertPEM with
      | error msg => simp [Configure, h1, h2, h3]
      | ok cert =>
        cases h4 : cert.publicKey with
        | nonRsa algo => simp [Configure, h1, h2, h3, h4]
        | rsa key =>
          exfalso
          simp only [Configure, h1, h2, h3, h4] at h
          exact Except.noConfusion h

/-- C9 witness: a failing parse leaves the concrete prior state intact. -/
theorem configure_error_preserves_state_witness :
    (Configure envConfParseFail pStateEx reqTrustDomainOnly).1 = pStateEx :=
  configure_error_preserves_state envConfParseFail pStateEx reqTrustDomainOnly
    ConfigureError.hclParseFailed rfl

/-- C10: there are successful provider responses — an instance with an
empty network-interface sequence, or whose matching root mapping carries no
EBS attachment data — on which `Attest` crashes on unguarded indexing /
dereferencing: no denial path covers these shapes (a crash is never a
`valid=false` denial). -/
theorem attest_crash_on_missing_interface_or_ebs :
    Attest (envWithInst instNoInterfaces) pStateEx reqEx = AttestOutcome.crash ∧
    Attest (envWithInst instNoEbs) pStateEx reqEx = AttestOutcome.crash ∧
    ∀ err, AttestOutcome.crash ≠ AttestOutcome.denied err := by
  refine ⟨by decide, by decide, fun err h => AttestOutcome.noConfusion h⟩
